import Mathlib

/-!
Shallow embedding of the data layer of the cliente-simples-box CRM.

Sources embedded here:
- supabase/migrations/20250929222129_*.sql: the four tables (profiles,
  customers, customer_interactions, reminders), their row-level-security
  policies, the ON DELETE CASCADE foreign keys, the update_updated_at_column
  trigger and the handle_new_user signup trigger;
- src/pages/Customers.tsx: customerSchema validation, handleSubmit
  (create with the 20-customer free-plan pre-check, and update),
  handleDelete;
- src/pages/Reminders.tsx: handleToggleComplete.

Modelling conventions: UUIDs and timestamps are natural numbers; TEXT is
String; nullable columns are Option; TEXT[] is List String. The store is
four lists of rows. Postgres row-level security is modelled as in the
engine: SELECT/UPDATE/DELETE see only rows whose USING clause
(auth.uid() = user_id) holds; an INSERT whose row fails WITH CHECK raises
an error (the AuthorizationError of the spec); an UPDATE whose touched
row, after the SET, fails the policy (USING doubles as WITH CHECK when no
separate WITH CHECK is given) raises the same error; an UPDATE or DELETE
that matches no visible row succeeds silently, touching nothing. BEFORE
UPDATE triggers overwrite updated_at with now() on every touched row of
profiles, customers and reminders (customer_interactions has no such
trigger). ON DELETE CASCADE removes child rows referencing a deleted
parent regardless of who owns the child, as the foreign-key machinery
bypasses row security. Each operation is a single transition of the whole
store, so a transaction is atomic by construction.
-/

namespace ClienteSimplesBox

/-- auth.users id (UUID). -/
abbrev UserId := Nat

/-- Row id (UUID primary key). -/
abbrev RowId := Nat

/-- TIMESTAMP WITH TIME ZONE. -/
abbrev Time := Nat

/-- public.profiles: id, user_id (UNIQUE, FK auth.users ON DELETE CASCADE),
full_name TEXT, business_name TEXT, plan TEXT DEFAULT 'free',
created_at, updated_at. -/
structure Profile where
  id : RowId
  user_id : UserId
  full_name : Option String
  business_name : Option String
  plan : String
  created_at : Time
  updated_at : Time
deriving Repr, DecidableEq

/-- public.customers: id, user_id (FK auth.users ON DELETE CASCADE),
name TEXT NOT NULL, email, phone, notes, tags TEXT[] DEFAULT empty,
created_at, updated_at. -/
structure Customer where
  id : RowId
  user_id : UserId
  name : String
  email : Option String
  phone : Option String
  notes : Option String
  tags : List String
  created_at : Time
  updated_at : Time
deriving Repr, DecidableEq

/-- public.customer_interactions: id, customer_id (FK customers ON DELETE
CASCADE), user_id (FK auth.users ON DELETE CASCADE), type TEXT NOT NULL,
description TEXT NOT NULL, interaction_date, created_at. No updated_at. -/
structure Interaction where
  id : RowId
  customer_id : RowId
  user_id : UserId
  kind : String
  description : String
  interaction_date : Time
  created_at : Time
deriving Repr, DecidableEq

/-- public.reminders: id, customer_id (FK customers ON DELETE CASCADE),
user_id (FK auth.users ON DELETE CASCADE), title TEXT NOT NULL,
description, reminder_date NOT NULL, completed BOOLEAN DEFAULT false,
created_at, updated_at. -/
structure Reminder where
  id : RowId
  customer_id : RowId
  user_id : UserId
  title : String
  description : Option String
  reminder_date : Time
  completed : Bool
  created_at : Time
  updated_at : Time
deriving Repr, DecidableEq

/-- The whole store: the four public tables. -/
structure DB where
  profiles : List Profile
  customers : List Customer
  interactions : List Interaction
  reminders : List Reminder
deriving Repr, DecidableEq

/-- Error taxonomy of the spec, section 7. authorizationError is the
row-level-security violation raised by the store; validationError is the
zod rejection in the client; conflictError is the free-plan limit
pre-check refusal in the client. -/
inductive DbError where
  | authorizationError
  | validationError (msg : String)
  | conflictError (msg : String)
deriving Repr, DecidableEq

/-- State the caller observes after an operation: on success the new
store, on error the store is untouched (no write occurred). -/
def stateAfter (db : DB) : Except DbError DB → DB
  | .ok db' => db'
  | .error _ => db

/-- What the caller can observe of a mutation result apart from the data:
the JavaScript client destructures only the error field. -/
def resultSignal : Except DbError DB → Except DbError Unit
  | .ok _ => .ok ()
  | .error e => .error e

/-! SELECT under row-level security: USING (auth.uid() = user_id). -/

/-- Policy "Users can view their own profile". -/
def selectProfiles (db : DB) (caller : UserId) : List Profile :=
  db.profiles.filter (fun p => p.user_id == caller)

/-- Policy "Users can view their own customers". -/
def selectCustomers (db : DB) (caller : UserId) : List Customer :=
  db.customers.filter (fun c => c.user_id == caller)

/-- Policy "Users can view their own customer interactions". -/
def selectInteractions (db : DB) (caller : UserId) : List Interaction :=
  db.interactions.filter (fun i => i.user_id == caller)

/-- Policy "Users can view their own reminders". -/
def selectReminders (db : DB) (caller : UserId) : List Reminder :=
  db.reminders.filter (fun r => r.user_id == caller)

/-! INSERT under row-level security: WITH CHECK (auth.uid() = user_id);
a failing check raises an error and writes nothing. -/

/-- Policy "Users can create their own profile". -/
def insertProfile (db : DB) (caller : UserId) (p : Profile) : Except DbError DB :=
  if p.user_id == caller then
    .ok { db with profiles := db.profiles ++ [p] }
  else .error .authorizationError

/-- Policy "Users can create their own customers". -/
def insertCustomer (db : DB) (caller : UserId) (c : Customer) : Except DbError DB :=
  if c.user_id == caller then
    .ok { db with customers := db.customers ++ [c] }
  else .error .authorizationError

/-- Policy "Users can create their own customer interactions". -/
def insertInteraction (db : DB) (caller : UserId) (i : Interaction) : Except DbError DB :=
  if i.user_id == caller then
    .ok { db with interactions := db.interactions ++ [i] }
  else .error .authorizationError

/-- Policy "Users can create their own reminders". -/
def insertReminder (db : DB) (caller : UserId) (r : Reminder) : Except DbError DB :=
  if r.user_id == caller then
    .ok { db with reminders := db.reminders ++ [r] }
  else .error .authorizationError

/-! UPDATE under row-level security. The client always issues
UPDATE ... WHERE id = rid; the policy USING (auth.uid() = user_id)
restricts which rows are touched. The SET clause is an arbitrary field
transformer f; on profiles, customers and reminders the BEFORE UPDATE
trigger update_updated_at_column then overwrites NEW.updated_at with
now(), whatever f put there. With no separate WITH CHECK, the USING
clause is also checked on the new row; a violation raises an error. -/

/-- Image of one profiles row under UPDATE ... WHERE id = rid by caller,
with SET clause f, after the update_profiles_updated_at trigger. -/
def updProfileRow (caller : UserId) (rid : RowId) (f : Profile → Profile)
    (now : Time) (p : Profile) : Profile :=
  if p.id == rid && p.user_id == caller then { f p with updated_at := now } else p

/-- Policy "Users can update their own profile", plus the trigger. -/
def dbUpdateProfiles (db : DB) (caller : UserId) (rid : RowId)
    (f : Profile → Profile) (now : Time) : Except DbError DB :=
  if db.profiles.any (fun p =>
      (p.id == rid && p.user_id == caller) && (updProfileRow caller rid f now p).user_id != caller) then
    .error .authorizationError
  else
    .ok { db with profiles := db.profiles.map (updProfileRow caller rid f now) }

/-- Image of one customers row under UPDATE ... WHERE id = rid by caller,
with SET clause f, after the update_customers_updated_at trigger. -/
def updCustomerRow (caller : UserId) (rid : RowId) (f : Customer → Customer)
    (now : Time) (c : Customer) : Customer :=
  if c.id == rid && c.user_id == caller then { f c with updated_at := now } else c

/-- Policy "Users can update their own customers", plus the trigger. -/
def dbUpdateCustomers (db : DB) (caller : UserId) (rid : RowId)
    (f : Customer → Customer) (now : Time) : Except DbError DB :=
  if db.customers.any (fun c =>
      (c.id == rid && c.user_id == caller) && (updCustomerRow caller rid f now c).user_id != caller) then
    .error .authorizationError
  else
    .ok { db with customers := db.customers.map (updCustomerRow caller rid f now) }

/-- Image of one customer_interactions row under UPDATE ... WHERE id = rid
by caller with SET clause f. This table has no updated_at trigger. -/
def updInteractionRow (caller : UserId) (rid : RowId) (f : Interaction → Interaction)
    (i : Interaction) : Interaction :=
  if i.id == rid && i.user_id == caller then f i else i

/-- Policy "Users can update their own customer interactions". -/
def dbUpdateInteractions (db : DB) (caller : UserId) (rid : RowId)
    (f : Interaction → Interaction) : Except DbError DB :=
  if db.interactions.any (fun i =>
      (i.id == rid && i.user_id == caller) && (updInteractionRow caller rid f i).user_id != caller) then
    .error .authorizationError
  else
    .ok { db with interactions := db.interactions.map (updInteractionRow caller rid f) }

/-- Image of one reminders row under UPDATE ... WHERE id = rid by caller,
with SET clause f, after the update_reminders_updated_at trigger. -/
def updReminderRow (caller : UserId) (rid : RowId) (f : Reminder → Reminder)
    (now : Time) (r : Reminder) : Reminder :=
  if r.id == rid && r.user_id == caller then { f r with updated_at := now } else r

/-- Policy "Users can update their own reminders", plus the trigger. -/
def dbUpdateReminders (db : DB) (caller : UserId) (rid : RowId)
    (f : Reminder → Reminder) (now : Time) : Except DbError DB :=
  if db.reminders.any (fun r =>
      (r.id == rid && r.user_id == caller) && (updReminderRow caller rid f now r).user_id != caller) then
    .error .authorizationError
  else
    .ok { db with reminders := db.reminders.map (updReminderRow caller rid f now) }

/-! DELETE under row-level security: USING (auth.uid() = user_id); a
delete that matches no visible row succeeds touching nothing. Deleting a
customers row fires the ON DELETE CASCADE of customer_interactions and
reminders, which removes every child referencing a deleted customer,
whoever owns the child. profiles has no DELETE policy, so with row
security enabled no delete on it ever touches a row. -/

/-- Policy "Users can delete their own customers", with the cascade to
customer_interactions and reminders, in one atomic transition. -/
def dbDeleteCustomer (db : DB) (caller : UserId) (rid : RowId) : DB :=
  let goneIds := (db.customers.filter (fun c => c.id == rid && c.user_id == caller)).map (·.id)
  { db with
    customers := db.customers.filter (fun c => !(c.id == rid && c.user_id == caller)),
    interactions := db.interactions.filter (fun i => !(goneIds.contains i.customer_id)),
    reminders := db.reminders.filter (fun r => !(goneIds.contains r.customer_id)) }

/-- Policy "Users can delete their own customer interactions". -/
def dbDeleteInteraction (db : DB) (caller : UserId) (rid : RowId) : DB :=
  { db with interactions := db.interactions.filter (fun i => !(i.id == rid && i.user_id == caller)) }

/-- Policy "Users can delete their own reminders". -/
def dbDeleteReminder (db : DB) (caller : UserId) (rid : RowId) : DB :=
  { db with reminders := db.reminders.filter (fun r => !(r.id == rid && r.user_id == caller)) }

/-- profiles has no DELETE policy: with row security enabled the default
is deny, so a delete on profiles touches no row. -/
def dbDeleteProfile (db : DB) (_caller : UserId) (_rid : RowId) : DB := db

/-! auth.users triggers. -/

/-- handle_new_user, fired AFTER INSERT ON auth.users: inserts one
profiles row for the new identity, full_name =
COALESCE(raw_user_meta_data full_name, empty string), the other columns
taking their defaults (plan 'free', timestamps now()). SECURITY DEFINER,
so it bypasses the row policies. -/
def handle_new_user (db : DB) (pid : RowId) (uid : UserId)
    (raw_full_name : Option String) (now : Time) : DB :=
  { db with profiles := db.profiles ++ [{
      id := pid
      user_id := uid
      full_name := some (raw_full_name.getD "")
      business_name := none
      plan := "free"
      created_at := now
      updated_at := now }] }

/-- Deleting an auth.users row: the user_id foreign keys of all four
tables are ON DELETE CASCADE, and removing a customers row further
cascades by customer_id into customer_interactions and reminders. -/
def deleteAuthUser (db : DB) (uid : UserId) : DB :=
  let goneIds := (db.customers.filter (fun c => c.user_id == uid)).map (·.id)
  { profiles := db.profiles.filter (fun p => !(p.user_id == uid)),
    customers := db.customers.filter (fun c => !(c.user_id == uid)),
    interactions := db.interactions.filter
      (fun i => !(i.user_id == uid || goneIds.contains i.customer_id)),
    reminders := db.reminders.filter
      (fun r => !(r.user_id == uid || goneIds.contains r.customer_id)) }

/-! Client layer, src/pages/Customers.tsx. -/

/-- JavaScript String.prototype.trim as zod's .trim() applies it: strip
leading and trailing whitespace. Written with structural recursion on the
character list so that concrete instances compute inside proofs. -/
def jsTrim (s : String) : String :=
  String.mk (((s.data.dropWhile Char.isWhitespace).reverse.dropWhile Char.isWhitespace).reverse)

/-- The formData state of the Customers page: five text inputs. -/
structure CustomerForm where
  name : String
  email : String
  phone : String
  notes : String
  tags : String
deriving Repr, DecidableEq

/-- The customerData object built in handleSubmit after zod validation:
the payload sent to the store for both insert and update. -/
structure CustomerData where
  name : String
  email : Option String
  phone : Option String
  notes : Option String
  tags : List String
  user_id : UserId
deriving Repr, DecidableEq

/-- customerSchema.parse followed by the customerData construction of
handleSubmit. zod trims every field; name must have at least 2 characters
after trimming; email must be empty or a well-formed address — the
outcome of the zod email format test on a non-empty trimmed email is the
emailOk argument (an empty email always passes via or(z.literal(''))).
Empty optional fields become null; tags is split on commas, each tag
trimmed, empty tags dropped; user_id is the caller. -/
def parsedCustomer (caller : UserId) (f : CustomerForm) : CustomerData :=
  { name := jsTrim f.name
    email := if jsTrim f.email == "" then none else some (jsTrim f.email)
    phone := if jsTrim f.phone == "" then none else some (jsTrim f.phone)
    notes := if jsTrim f.notes == "" then none else some (jsTrim f.notes)
    tags := if jsTrim f.tags == "" then []
            else (((jsTrim f.tags).splitOn ",").map jsTrim).filter (fun t => t != "")
    user_id := caller }

/-- The validation gate of customerSchema.parse: reject a name shorter
than 2 characters after trimming, reject a non-empty email that fails the
zod format test, otherwise hand back the parsed payload. -/
def parseCustomerForm (caller : UserId) (f : CustomerForm) (emailOk : Bool) :
    Except DbError CustomerData :=
  if (jsTrim f.name).length < 2 then
    .error (.validationError "Nome deve ter pelo menos 2 caracteres")
  else if !(jsTrim f.email == "" || emailOk) then
    .error (.validationError "Email invalido")
  else
    .ok (parsedCustomer caller f)

/-- A fresh customers row for INSERT: id from gen_random_uuid, timestamp
columns take their DEFAULT now(). -/
def mkCustomerRow (newId : RowId) (d : CustomerData) (now : Time) : Customer :=
  { id := newId
    user_id := d.user_id
    name := d.name
    email := d.email
    phone := d.phone
    notes := d.notes
    tags := d.tags
    created_at := now
    updated_at := now }

/-- The SET clause of the handleSubmit update branch: every key of
customerData is assigned. -/
def setCustomerFields (d : CustomerData) (c : Customer) : Customer :=
  { c with name := d.name, email := d.email, phone := d.phone,
           notes := d.notes, tags := d.tags, user_id := d.user_id }

/-- handleSubmit, create branch: zod validation, then the free-plan
pre-check — if the loaded list (the caller's own customers) already has
20 or more entries, refuse with the limit message before any write —
otherwise insert the new row owned by the caller. -/
def clientCreateCustomer (db : DB) (caller : UserId) (f : CustomerForm)
    (emailOk : Bool) (newId : RowId) (now : Time) : Except DbError DB :=
  match parseCustomerForm caller f emailOk with
  | .error e => .error e
  | .ok d =>
    if 20 ≤ (selectCustomers db caller).length then
      .error (.conflictError "Limite atingido: 20 clientes do plano gratuito")
    else
      insertCustomer db caller (mkCustomerRow newId d now)

/-- handleSubmit, update branch: zod validation, then
UPDATE customers SET customerData WHERE id = editing id. -/
def clientUpdateCustomer (db : DB) (caller : UserId) (rid : RowId)
    (f : CustomerForm) (emailOk : Bool) (now : Time) : Except DbError DB :=
  match parseCustomerForm caller f emailOk with
  | .error e => .error e
  | .ok d => dbUpdateCustomers db caller rid (setCustomerFields d) now

/-- handleDelete of the Customers page: DELETE FROM customers WHERE id =
the chosen row (the confirm dialog is presentation only). -/
def handleDeleteCustomer (db : DB) (caller : UserId) (rid : RowId) : DB :=
  dbDeleteCustomer db caller rid

/-! Client layer, src/pages/Reminders.tsx. -/

/-- handleToggleComplete: given the client copy r of a reminder row,
UPDATE reminders SET completed = not r.completed WHERE id = r.id. -/
def handleToggleComplete (db : DB) (caller : UserId) (r : Reminder)
    (now : Time) : Except DbError DB :=
  dbUpdateReminders db caller r.id (fun row => { row with completed := !r.completed }) now

/-- countCustomers of the facade: how many customers the owner sees. -/
def countCustomers (db : DB) (owner : UserId) : Nat :=
  (selectCustomers db owner).length

/-! Invariants and predicates the claims speak about. -/

/-- Every customers row has a non-empty name. -/
def CustomerNamesOK (db : DB) : Prop := ∀ c ∈ db.customers, c.name ≠ ""

/-- Every interaction and reminder is owned by the same user as the
customer it references. The application maintains this (it only ever
writes children under the caller's own customers), but the schema does
not enforce it: the WITH CHECK clauses constrain user_id only, and
foreign-key validation bypasses row security. -/
def OwnerCoherent (db : DB) : Prop :=
  (∀ i ∈ db.interactions, ∀ c ∈ db.customers, i.customer_id = c.id → i.user_id = c.user_id) ∧
  (∀ r ∈ db.reminders, ∀ c ∈ db.customers, r.customer_id = c.id → r.user_id = c.user_id)

/-! Concrete stores used to instantiate the theorems. -/

/-- The empty store. -/
def dbEmpty : DB := { profiles := [], customers := [], interactions := [], reminders := [] }

/-- A store whose only content is n customers owned by user 0. -/
def dbWithCustomers (n : Nat) : DB :=
  { profiles := [], interactions := [], reminders := [],
    customers := (List.range n).map (fun k =>
      { id := k, user_id := 0, name := "ab", email := none, phone := none,
        notes := none, tags := [], created_at := 0, updated_at := 0 }) }

/-- A customers row owned by user 2. -/
def bCustomerRow : Customer :=
  { id := 1, user_id := 2, name := "cliente de B", email := none, phone := none,
    notes := none, tags := [], created_at := 0, updated_at := 0 }

/-- An interaction owned by user 3 that references customer 1, which
belongs to user 2. Its insert passes the WITH CHECK of
customer_interactions (user_id equals the caller, user 3) and the
foreign-key lookup of customer 1 is not subject to row security. -/
def crossInteraction : Interaction :=
  { id := 5, customer_id := 1, user_id := 3, kind := "call",
    description := "registro de A sobre cliente de B", interaction_date := 0, created_at := 0 }

/-- Store reached from empty by user 2 inserting a customer. -/
def dbStep1 : DB := stateAfter dbEmpty (insertCustomer dbEmpty 2 bCustomerRow)

/-- Store reached from dbStep1 by user 3 inserting crossInteraction:
customer 1 owned by user 2, interaction 5 owned by user 3 referencing it. -/
def dbCross : DB := stateAfter dbStep1 (insertInteraction dbStep1 3 crossInteraction)

/-- A sample valid customer form. -/
def sampleForm : CustomerForm :=
  { name := "Ana Silva", email := "", phone := "", notes := "", tags := "vip, novo" }

/-- The profile row of dbSample, owned by user 7. -/
def sampleProfile7 : Profile :=
  { id := 10, user_id := 7, full_name := some "Ana", business_name := none,
    plan := "free", created_at := 0, updated_at := 0 }

/-- The customer row of dbSample, owned by user 7. -/
def sampleCustomer7 : Customer :=
  { id := 11, user_id := 7, name := "Bia", email := none, phone := none,
    notes := none, tags := [], created_at := 0, updated_at := 0 }

/-- The interaction row of dbSample, owned by user 7 on customer 11. -/
def sampleInteraction7 : Interaction :=
  { id := 12, customer_id := 11, user_id := 7, kind := "call",
    description := "ligacao", interaction_date := 0, created_at := 0 }

/-- The reminder row of dbSample, owned by user 7, initially pending. -/
def sampleReminder7 : Reminder :=
  { id := 13, customer_id := 11, user_id := 7, title := "Retornar",
    description := none, reminder_date := 5, completed := false,
    created_at := 0, updated_at := 0 }

/-- A one-customer, one-reminder, one-interaction, one-profile store
owned by user 7, used to instantiate theorems. -/
def dbSample : DB :=
  { profiles := [sampleProfile7],
    customers := [sampleCustomer7],
    interactions := [sampleInteraction7],
    reminders := [sampleReminder7] }

/-- A sample profile row owned by user 2. -/
def sampleProfile2 : Profile :=
  { id := 20, user_id := 2, full_name := none, business_name := none,
    plan := "free", created_at := 0, updated_at := 0 }

/-- A sample interaction row owned by user 2. -/
def sampleInteraction2 : Interaction :=
  { id := 22, customer_id := 1, user_id := 2, kind := "email",
    description := "proposta", interaction_date := 0, created_at := 0 }

/-- A sample reminder row owned by user 2. -/
def sampleReminder2 : Reminder :=
  { id := 21, customer_id := 1, user_id := 2, title := "ligar", description := none,
    reminder_date := 0, completed := false, created_at := 0, updated_at := 0 }

/-- The same reminder as the client sees it after the first toggle. -/
def sampleReminder7Toggled : Reminder :=
  { sampleReminder7 with completed := true, updated_at := 3 }

/-- Store after user 7 toggles sampleReminder7 at time 3. -/
def dbToggled1 : DB :=
  stateAfter dbSample (handleToggleComplete dbSample 7 sampleReminder7 3)

/-- Store after user 7 toggles the same reminder again at time 6. -/
def dbToggled2 : DB :=
  stateAfter dbToggled1 (handleToggleComplete dbToggled1 7 sampleReminder7Toggled 6)

/-- A SET clause on profiles that also tries to backdate updated_at. -/
def updProfileSet (p : Profile) : Profile :=
  { p with full_name := some "Novo", updated_at := 999 }

/-- A SET clause on customers that also tries to backdate updated_at. -/
def updCustomerSet (c : Customer) : Customer :=
  { c with name := "Novo nome", updated_at := 999 }

/-- A SET clause on reminders that also tries to backdate updated_at. -/
def updReminderSet (r : Reminder) : Reminder :=
  { r with title := "Novo titulo", updated_at := 999 }

/-- Store after user 7 updates profile 10 at time 50. -/
def dbAfterProfUpd : DB :=
  stateAfter dbSample (dbUpdateProfiles dbSample 7 10 updProfileSet 50)

/-- Store after user 7 updates customer 11 at time 50. -/
def dbAfterCustUpd : DB :=
  stateAfter dbSample (dbUpdateCustomers dbSample 7 11 updCustomerSet 50)

/-- Store after user 7 updates reminder 13 at time 50. -/
def dbAfterRemUpd : DB :=
  stateAfter dbSample (dbUpdateReminders dbSample 7 13 updReminderSet 50)

/-- A store in which every table has exactly one row, all with id 1 and
all owned by user 2. -/
def dbOther : DB :=
  { profiles := [{ id := 1, user_id := 2, full_name := none, business_name := none,
                   plan := "free", created_at := 0, updated_at := 0 }],
    customers := [{ id := 1, user_id := 2, name := "Duda", email := none, phone := none,
                    notes := none, tags := [], created_at := 0, updated_at := 0 }],
    interactions := [{ id := 1, customer_id := 1, user_id := 2, kind := "meeting",
                       description := "visita", interaction_date := 0, created_at := 0 }],
    reminders := [{ id := 1, customer_id := 1, user_id := 2, title := "cobrar",
                    description := none, reminder_date := 0, completed := false,
                    created_at := 0, updated_at := 0 }] }

/-! General list lemmas shared by the claim proofs. -/

/-- Mapping a function that fixes every element of a list is the identity. -/
theorem map_fix {α : Type} (l : List α) (g : α → α) (h : ∀ a ∈ l, g a = a) :
    l.map g = l := by
  induction l with
  | nil => rfl
  | cons a l ih =>
    simp only [List.map_cons]
    rw [h a (by simp), ih (fun x hx => h x (by simp [hx]))]

/-- Filtering after a map that fixes the selected elements and never
promotes an unselected one gives the same list as filtering directly. -/
theorem filter_map_fix {α : Type} (l : List α) (g : α → α) (p : α → Bool)
    (hfix : ∀ x ∈ l, p x = true → g x = x)
    (hkeep : ∀ x ∈ l, p x = false → p (g x) = false) :
    (l.map g).filter p = l.filter p := by
  induction l with
  | nil => rfl
  | cons a l ih =>
    have ih' := ih (fun x hx => hfix x (by simp [hx])) (fun x hx => hkeep x (by simp [hx]))
    simp only [List.map_cons, List.filter_cons]
    cases hpa : p a with
    | true => rw [hfix a (by simp) hpa, hpa, ih']
    | false => rw [hkeep a (by simp) hpa, ih']; simp

/-- Filtering after an inner filter that keeps every selected element
gives the same list as filtering directly. -/
theorem filter_filter_keep {α : Type} (l : List α) (p q : α → Bool)
    (h : ∀ x ∈ l, p x = true → q x = true) :
    (l.filter q).filter p = l.filter p := by
  induction l with
  | nil => rfl
  | cons a l ih =>
    have ih' := ih (fun x hx => h x (by simp [hx]))
    simp only [List.filter_cons]
    cases hpa : p a with
    | true => rw [h a (by simp) hpa]; simp [List.filter_cons, hpa, ih']
    | false =>
      cases hqa : q a with
      | true => simp [List.filter_cons, hpa, ih']
      | false => simp [ih']

/-- C10: deleting an auth user cascades through the user_id foreign keys
of all four tables (and through customer_id for children of the removed
customers), leaving no row in any table whose owner reference is the
deleted identity. -/
theorem auth_user_delete_removes_all_owned (db : DB) (uid : UserId) :
    (∀ p ∈ (deleteAuthUser db uid).profiles, p.user_id ≠ uid) ∧
    (∀ c ∈ (deleteAuthUser db uid).customers, c.user_id ≠ uid) ∧
    (∀ i ∈ (deleteAuthUser db uid).interactions, i.user_id ≠ uid) ∧
    (∀ r ∈ (deleteAuthUser db uid).reminders, r.user_id ≠ uid) := by
  refine ⟨?_, ?_, ?_, ?_⟩ <;> intro x hx <;>
    simp only [deleteAuthUser, List.mem_filter, Bool.not_eq_true',
      Bool.or_eq_false_iff, beq_eq_false_iff_ne] at hx
  · exact hx.2
  · exact hx.2
  · exact hx.2.1
  · exact hx.2.1

/-- C5: an insert into any of the four tables whose row carries an owner
reference different from the caller fails the WITH CHECK clause with an
authorization error and writes nothing, while an insert whose owner
reference is the caller is accepted and appends exactly that row. -/
theorem insert_requires_ownership (db : DB) (A B : UserId) (hBA : B ≠ A)
    (p : Profile) (c : Customer) (i : Interaction) (r : Reminder)
    (hp : p.user_id = A) (hc : c.user_id = A) (hi : i.user_id = A) (hr : r.user_id = A) :
    (insertProfile db B p = .error .authorizationError ∧
      stateAfter db (insertProfile db B p) = db) ∧
    (insertCustomer db B c = .error .authorizationError ∧
      stateAfter db (insertCustomer db B c) = db) ∧
    (insertInteraction db B i = .error .authorizationError ∧
      stateAfter db (insertInteraction db B i) = db) ∧
    (insertReminder db B r = .error .authorizationError ∧
      stateAfter db (insertReminder db B r) = db) ∧
    (insertProfile db A p = .ok { db with profiles := db.profiles ++ [p] }) ∧
    (insertCustomer db A c = .ok { db with customers := db.customers ++ [c] }) ∧
    (insertInteraction db A i = .ok { db with interactions := db.interactions ++ [i] }) ∧
    (insertReminder db A r = .ok { db with reminders := db.reminders ++ [r] }) := by
  have hAB : A ≠ B := fun h => hBA h.symm
  simp [insertProfile, insertCustomer, insertInteraction, insertReminder,
    stateAfter, hp, hc, hi, hr, hAB]

/-- Witness for insert_requires_ownership: user 9 cannot insert rows
owned by user 2, user 2 can. -/
theorem insert_requires_ownership_witness :
    (insertProfile dbSample 9 sampleProfile2 = .error .authorizationError ∧
      stateAfter dbSample (insertProfile dbSample 9 sampleProfile2) = dbSample) ∧
    (insertCustomer dbSample 9 bCustomerRow = .error .authorizationError ∧
      stateAfter dbSample (insertCustomer dbSample 9 bCustomerRow) = dbSample) ∧
    (insertInteraction dbSample 9 sampleInteraction2 = .error .authorizationError ∧
      stateAfter dbSample (insertInteraction dbSample 9 sampleInteraction2) = dbSample) ∧
    (insertReminder dbSample 9 sampleReminder2 = .error .authorizationError ∧
      stateAfter dbSample (insertReminder dbSample 9 sampleReminder2) = dbSample) ∧
    (insertProfile dbSample 2 sampleProfile2 =
      .ok { dbSample with profiles := dbSample.profiles ++ [sampleProfile2] }) ∧
    (insertCustomer dbSample 2 bCustomerRow =
      .ok { dbSample with customers := dbSample.customers ++ [bCustomerRow] }) ∧
    (insertInteraction dbSample 2 sampleInteraction2 =
      .ok { dbSample with interactions := dbSample.interactions ++ [sampleInteraction2] }) ∧
    (insertReminder dbSample 2 sampleReminder2 =
      .ok { dbSample with reminders := dbSample.reminders ++ [sampleReminder2] }) :=
  insert_requires_ownership dbSample 2 9 (by decide)
    sampleProfile2 bCustomerRow sampleInteraction2 sampleReminder2
    (by decide) (by decide) (by decide) (by decide)

/-- C3: firing the signup trigger for a fresh identity (one that owns no
profile yet, which the UNIQUE(user_id) constraint guarantees for a newly
registered auth user) leaves exactly one profiles row keyed to that
identity, with plan free and full_name the name supplied at signup,
defaulting to the empty string when none was supplied. -/
theorem signup_creates_unique_free_profile (db : DB) (pid : RowId) (uid : UserId)
    (raw : Option String) (now : Time)
    (hfresh : (db.profiles.filter (fun p => p.user_id == uid)).length = 0) :
    ((handle_new_user db pid uid raw now).profiles.filter
      (fun p => p.user_id == uid)).length = 1 ∧
    (∀ p ∈ (handle_new_user db pid uid raw now).profiles, p.user_id = uid →
      p.plan = "free" ∧ p.full_name = some (raw.getD "")) := by
  have hnil : db.profiles.filter (fun p => p.user_id == uid) = [] :=
    List.length_eq_zero.mp hfresh
  constructor
  · simp [handle_new_user, List.filter_append, hnil]
  · intro p hp hpu
    simp only [handle_new_user, List.mem_append, List.mem_singleton] at hp
    rcases hp with hp | hp
    · exfalso
      have : p ∈ db.profiles.filter (fun q => q.user_id == uid) :=
        List.mem_filter.mpr ⟨hp, by simp [hpu]⟩
      rw [hnil] at this
      exact absurd this (List.not_mem_nil p)
    · subst hp
      exact ⟨rfl, rfl⟩

/-- Witness for signup_creates_unique_free_profile: registering user 8
with name Carla in the sample store. -/
theorem signup_creates_unique_free_profile_witness :
    (((handle_new_user dbSample 30 8 (some "Carla") 4).profiles.filter
      (fun p => p.user_id == 8)).length = 1) ∧
    (∀ p ∈ (handle_new_user dbSample 30 8 (some "Carla") 4).profiles, p.user_id = 8 →
      p.plan = "free" ∧ p.full_name = some ((some "Carla").getD "")) :=
  signup_creates_unique_free_profile dbSample 30 8 (some "Carla") 4 (by decide)

/-- Inversion of a successful profiles update: the profiles list is the
row-wise image and the other tables are untouched. -/
theorem dbUpdateProfiles_ok (db : DB) (caller : UserId) (rid : RowId)
    (f : Profile → Profile) (now : Time) (db' : DB)
    (h : dbUpdateProfiles db caller rid f now = .ok db') :
    db'.profiles = db.profiles.map (updProfileRow caller rid f now) ∧
    db'.customers = db.customers ∧ db'.interactions = db.interactions ∧
    db'.reminders = db.reminders ∧
    (∀ p ∈ db.profiles, (p.id == rid && p.user_id == caller) = true →
      (updProfileRow caller rid f now p).user_id = caller) := by
  unfold dbUpdateProfiles at h
  split at h
  · exact Except.noConfusion h
  · next hchk =>
    injection h with h'
    subst h'
    refine ⟨rfl, rfl, rfl, rfl, ?_⟩
    intro p hp hhit
    by_contra hne
    exact hchk (List.any_eq_true.mpr ⟨p, hp, by simp [hhit, hne]⟩)

/-- Inversion of a successful customers update. -/
theorem dbUpdateCustomers_ok (db : DB) (caller : UserId) (rid : RowId)
    (f : Customer → Customer) (now : Time) (db' : DB)
    (h : dbUpdateCustomers db caller rid f now = .ok db') :
    db'.customers = db.customers.map (updCustomerRow caller rid f now) ∧
    db'.profiles = db.profiles ∧ db'.interactions = db.interactions ∧
    db'.reminders = db.reminders ∧
    (∀ c ∈ db.customers, (c.id == rid && c.user_id == caller) = true →
      (updCustomerRow caller rid f now c).user_id = caller) := by
  unfold dbUpdateCustomers at h
  split at h
  · exact Except.noConfusion h
  · next hchk =>
    injection h with h'
    subst h'
    refine ⟨rfl, rfl, rfl, rfl, ?_⟩
    intro c hc hhit
    by_contra hne
    exact hchk (List.any_eq_true.mpr ⟨c, hc, by simp [hhit, hne]⟩)

/-- Inversion of a successful reminders update. -/
theorem dbUpdateReminders_ok (db : DB) (caller : UserId) (rid : RowId)
    (f : Reminder → Reminder) (now : Time) (db' : DB)
    (h : dbUpdateReminders db caller rid f now = .ok db') :
    db'.reminders = db.reminders.map (updReminderRow caller rid f now) ∧
    db'.profiles = db.profiles ∧ db'.customers = db.customers ∧
    db'.interactions = db.interactions ∧
    (∀ r ∈ db.reminders, (r.id == rid && r.user_id == caller) = true →
      (updReminderRow caller rid f now r).user_id = caller) := by
  unfold dbUpdateReminders at h
  split at h
  · exact Except.noConfusion h
  · next hchk =>
    injection h with h'
    subst h'
    refine ⟨rfl, rfl, rfl, rfl, ?_⟩
    intro r hr hhit
    by_contra hne
    exact hchk (List.any_eq_true.mpr ⟨r, hr, by simp [hhit, hne]⟩)

/-- C9: toggling a reminder twice through handleToggleComplete returns
its completed flag to the original value. The first toggle is issued with
the client copy r of a stored row, the second with the client copy r1
re-read (same id, same owner) from the store the first toggle produced;
afterwards every matching row, and in particular the row itself, carries
its original completed value. -/
theorem toggle_complete_roundtrip (db : DB) (caller : UserId) (r : Reminder)
    (now1 now2 : Time) (hr : r ∈ db.reminders) (hown : r.user_id = caller)
    (db1 : DB) (h1 : handleToggleComplete db caller r now1 = .ok db1)
    (r1 : Reminder) (hr1 : r1 ∈ db1.reminders) (hid1 : r1.id = r.id)
    (hu1 : r1.user_id = caller)
    (db2 : DB) (h2 : handleToggleComplete db1 caller r1 now2 = .ok db2) :
    (∀ row ∈ db2.reminders, row.id = r.id → row.user_id = caller →
      row.completed = r.completed) ∧
    (∃ row ∈ db2.reminders, row.id = r.id ∧ row.user_id = caller ∧
      row.completed = r.completed) := by
  have e1 := dbUpdateReminders_ok db caller r.id
    (fun row => { row with completed := !r.completed }) now1 db1 h1
  have e2 := dbUpdateReminders_ok db1 caller r1.id
    (fun row => { row with completed := !r1.completed }) now2 db2 h2
  -- the re-read copy carries the once-toggled flag
  have key1 : r1.completed = !r.completed := by
    rw [e1.1] at hr1
    obtain ⟨row0, hrow0, hmap⟩ := List.mem_map.mp hr1
    unfold updReminderRow at hmap
    by_cases hhit : (row0.id == r.id && row0.user_id == caller) = true
    · rw [if_pos hhit] at hmap
      subst hmap
      rfl
    · rw [if_neg hhit] at hmap
      subst hmap
      exact absurd (by simp [hid1, hu1]) hhit
  constructor
  · intro row hrow hrid hruser
    rw [e2.1, e1.1] at hrow
    obtain ⟨mid, hmid, hmideq⟩ := List.mem_map.mp hrow
    obtain ⟨row0, hrow0, hmid0⟩ := List.mem_map.mp hmid
    unfold updReminderRow at hmideq hmid0
    by_cases hhit1 : (row0.id == r.id && row0.user_id == caller) = true
    · rw [if_pos hhit1] at hmid0
      subst hmid0
      by_cases hhit2 : ((({ row0 with completed := !r.completed } : Reminder).id == r1.id) &&
          (({ row0 with completed := !r.completed } : Reminder).user_id == caller)) = true
      · rw [if_pos hhit2] at hmideq
        subst hmideq
        simp [key1]
      · exfalso
        apply hhit2
        simp only [Bool.and_eq_true, beq_iff_eq] at hhit1 ⊢
        exact ⟨by simpa [hid1] using hhit1.1, hhit1.2⟩
    · rw [if_neg hhit1] at hmid0
      subst hmid0
      by_cases hhit2 : (row0.id == r1.id && row0.user_id == caller) = true
      · rw [if_pos hhit2] at hmideq
        subst hmideq
        exact absurd (by simp [hrid, hruser] at *; simp [hid1 ▸ hhit2]) hhit1
      · rw [if_neg hhit2] at hmideq
        subst hmideq
        exact absurd (by simp [hrid, hruser]) hhit1
  · refine ⟨updReminderRow caller r1.id (fun row => { row with completed := !r1.completed }) now2
      (updReminderRow caller r.id (fun row => { row with completed := !r.completed }) now1 r),
      ?_, ?_⟩
    · rw [e2.1, e1.1]
      exact List.mem_map_of_mem _ (List.mem_map_of_mem _ hr)
    · simp [updReminderRow, hown, hid1, key1]

/-- Witness for toggle_complete_roundtrip: user 7 toggles reminder 13 of
the sample store at time 3 and again at time 6, landing back on
completed = false. -/
theorem toggle_complete_roundtrip_witness :
    (∀ row ∈ dbToggled2.reminders, row.id = sampleReminder7.id →
      row.user_id = 7 → row.completed = sampleReminder7.completed) ∧
    (∃ row ∈ dbToggled2.reminders, row.id = sampleReminder7.id ∧
      row.user_id = 7 ∧ row.completed = sampleReminder7.completed) :=
  toggle_complete_roundtrip dbSample 7 sampleReminder7 3 6 (by decide) (by decide)
    dbToggled1 (by rfl) sampleReminder7Toggled (by decide) (by decide) (by decide)
    dbToggled2 (by rfl)

/-- Inversion of a successful customer_interactions update (no trigger
on this table). -/
theorem dbUpdateInteractions_ok (db : DB) (caller : UserId) (rid : RowId)
    (f : Interaction → Interaction) (db' : DB)
    (h : dbUpdateInteractions db caller rid f = .ok db') :
    db'.interactions = db.interactions.map (updInteractionRow caller rid f) ∧
    db'.profiles = db.profiles ∧ db'.customers = db.customers ∧
    db'.reminders = db.reminders ∧
    (∀ i ∈ db.interactions, (i.id == rid && i.user_id == caller) = true →
      (updInteractionRow caller rid f i).user_id = caller) := by
  unfold dbUpdateInteractions at h
  split at h
  · exact Except.noConfusion h
  · next hchk =>
    injection h with h'
    subst h'
    refine ⟨rfl, rfl, rfl, rfl, ?_⟩
    intro i hi hhit
    by_contra hne
    exact hchk (List.any_eq_true.mpr ⟨i, hi, by simp [hhit, hne]⟩)

/-- C6: on profiles, customers and reminders the BEFORE UPDATE trigger
stamps every touched row's updated_at with now(), whatever value the SET
clause supplied, and every untouched row is returned verbatim; hence, as
long as the clock has not run backwards past the stored value, an update
never decreases updated_at. The final three equations tie the row images
to the successful store-level operations. -/
theorem update_refreshes_updated_at (caller : UserId) (now : Time)
    (ridP ridC ridR : RowId)
    (fP : Profile → Profile) (fC : Customer → Customer) (fR : Reminder → Reminder)
    (p : Profile) (c : Customer) (r : Reminder)
    (hp : p.updated_at ≤ now) (hc : c.updated_at ≤ now) (hrm : r.updated_at ≤ now)
    (db dbp dbc dbr : DB)
    (hdbp : dbUpdateProfiles db caller ridP fP now = .ok dbp)
    (hdbc : dbUpdateCustomers db caller ridC fC now = .ok dbc)
    (hdbr : dbUpdateReminders db caller ridR fR now = .ok dbr) :
    ((updProfileRow caller ridP fP now p).updated_at = now ∨
      updProfileRow caller ridP fP now p = p) ∧
    p.updated_at ≤ (updProfileRow caller ridP fP now p).updated_at ∧
    ((updCustomerRow caller ridC fC now c).updated_at = now ∨
      updCustomerRow caller ridC fC now c = c) ∧
    c.updated_at ≤ (updCustomerRow caller ridC fC now c).updated_at ∧
    ((updReminderRow caller ridR fR now r).updated_at = now ∨
      updReminderRow caller ridR fR now r = r) ∧
    r.updated_at ≤ (updReminderRow caller ridR fR now r).updated_at ∧
    dbp.profiles = db.profiles.map (updProfileRow caller ridP fP now) ∧
    dbc.customers = db.customers.map (updCustomerRow caller ridC fC now) ∧
    dbr.reminders = db.reminders.map (updReminderRow caller ridR fR now) := by
  refine ⟨?_, ?_, ?_, ?_, ?_, ?_,
    (dbUpdateProfiles_ok db caller ridP fP now dbp hdbp).1,
    (dbUpdateCustomers_ok db caller ridC fC now dbc hdbc).1,
    (dbUpdateReminders_ok db caller ridR fR now dbr hdbr).1⟩
  · unfold updProfileRow
    split
    · exact Or.inl rfl
    · exact Or.inr rfl
  · unfold updProfileRow
    split
    · exact hp
    · exact le_refl _
  · unfold updCustomerRow
    split
    · exact Or.inl rfl
    · exact Or.inr rfl
  · unfold updCustomerRow
    split
    · exact hc
    · exact le_refl _
  · unfold updReminderRow
    split
    · exact Or.inl rfl
    · exact Or.inr rfl
  · unfold updReminderRow
    split
    · exact hrm
    · exact le_refl _

/-- Witness for update_refreshes_updated_at: user 7 updates its three
rows at time 50 with SET clauses that each try to force updated_at to
999; the trigger stamps 50 regardless. -/
theorem update_refreshes_updated_at_witness :
    ((updProfileRow 7 10 updProfileSet 50 sampleProfile7).updated_at = 50 ∨
      updProfileRow 7 10 updProfileSet 50 sampleProfile7 = sampleProfile7) ∧
    sampleProfile7.updated_at ≤ (updProfileRow 7 10 updProfileSet 50 sampleProfile7).updated_at ∧
    ((updCustomerRow 7 11 updCustomerSet 50 sampleCustomer7).updated_at = 50 ∨
      updCustomerRow 7 11 updCustomerSet 50 sampleCustomer7 = sampleCustomer7) ∧
    sampleCustomer7.updated_at ≤ (updCustomerRow 7 11 updCustomerSet 50 sampleCustomer7).updated_at ∧
    ((updReminderRow 7 13 updReminderSet 50 sampleReminder7).updated_at = 50 ∨
      updReminderRow 7 13 updReminderSet 50 sampleReminder7 = sampleReminder7) ∧
    sampleReminder7.updated_at ≤ (updReminderRow 7 13 updReminderSet 50 sampleReminder7).updated_at ∧
    dbAfterProfUpd.profiles = dbSample.profiles.map (updProfileRow 7 10 updProfileSet 50) ∧
    dbAfterCustUpd.customers = dbSample.customers.map (updCustomerRow 7 11 updCustomerSet 50) ∧
    dbAfterRemUpd.reminders = dbSample.reminders.map (updReminderRow 7 13 updReminderSet 50) :=
  update_refreshes_updated_at 7 50 10 11 13 updProfileSet updCustomerSet updReminderSet
    sampleProfile7 sampleCustomer7 sampleReminder7 (by decide) (by decide) (by decide)
    dbSample dbAfterProfUpd dbAfterCustUpd dbAfterRemUpd (by rfl) (by rfl) (by rfl)

/-- A profiles update that can touch no row (no row is both visible to
the caller and named by the id) is a silent success leaving the store
as it was. -/
theorem dbUpdateProfiles_no_hit (db : DB) (u : UserId) (rid : RowId)
    (f : Profile → Profile) (now : Time)
    (h : ∀ p ∈ db.profiles, ¬(p.id = rid ∧ p.user_id = u)) :
    dbUpdateProfiles db u rid f now = .ok db := by
  have hfix : ∀ p ∈ db.profiles, updProfileRow u rid f now p = p := by
    intro p hp
    unfold updProfileRow
    rw [if_neg]
    intro hcond
    simp only [Bool.and_eq_true, beq_iff_eq] at hcond
    exact h p hp hcond
  unfold dbUpdateProfiles
  rw [if_neg, map_fix _ _ hfix]
  intro hany
  obtain ⟨p, hp, hcond⟩ := List.any_eq_true.mp hany
  simp only [Bool.and_eq_true, beq_iff_eq] at hcond
  exact h p hp hcond.1

/-- A customers update that can touch no row is a silent success leaving
the store as it was. -/
theorem dbUpdateCustomers_no_hit (db : DB) (u : UserId) (rid : RowId)
    (f : Customer → Customer) (now : Time)
    (h : ∀ c ∈ db.customers, ¬(c.id = rid ∧ c.user_id = u)) :
    dbUpdateCustomers db u rid f now = .ok db := by
  have hfix : ∀ c ∈ db.customers, updCustomerRow u rid f now c = c := by
    intro c hc
    unfold updCustomerRow
    rw [if_neg]
    intro hcond
    simp only [Bool.and_eq_true, beq_iff_eq] at hcond
    exact h c hc hcond
  unfold dbUpdateCustomers
  rw [if_neg, map_fix _ _ hfix]
  intro hany
  obtain ⟨c, hc, hcond⟩ := List.any_eq_true.mp hany
  simp only [Bool.and_eq_true, beq_iff_eq] at hcond
  exact h c hc hcond.1

/-- A customer_interactions update that can touch no row is a silent
success leaving the store as it was. -/
theorem dbUpdateInteractions_no_hit (db : DB) (u : UserId) (rid : RowId)
    (f : Interaction → Interaction)
    (h : ∀ i ∈ db.interactions, ¬(i.id = rid ∧ i.user_id = u)) :
    dbUpdateInteractions db u rid f = .ok db := by
  have hfix : ∀ i ∈ db.interactions, updInteractionRow u rid f i = i := by
    intro i hi
    unfold updInteractionRow
    rw [if_neg]
    intro hcond
    simp only [Bool.and_eq_true, beq_iff_eq] at hcond
    exact h i hi hcond
  unfold dbUpdateInteractions
  rw [if_neg, map_fix _ _ hfix]
  intro hany
  obtain ⟨i, hi, hcond⟩ := List.any_eq_true.mp hany
  simp only [Bool.and_eq_true, beq_iff_eq] at hcond
  exact h i hi hcond.1

/-- A reminders update that can touch no row is a silent success leaving
the store as it was. -/
theorem dbUpdateReminders_no_hit (db : DB) (u : UserId) (rid : RowId)
    (f : Reminder → Reminder) (now : Time)
    (h : ∀ r ∈ db.reminders, ¬(r.id = rid ∧ r.user_id = u)) :
    dbUpdateReminders db u rid f now = .ok db := by
  have hfix : ∀ r ∈ db.reminders, updReminderRow u rid f now r = r := by
    intro r hr
    unfold updReminderRow
    rw [if_neg]
    intro hcond
    simp only [Bool.and_eq_true, beq_iff_eq] at hcond
    exact h r hr hcond
  unfold dbUpdateReminders
  rw [if_neg, map_fix _ _ hfix]
  intro hany
  obtain ⟨r, hr, hcond⟩ := List.any_eq_true.mp hany
  simp only [Bool.and_eq_true, beq_iff_eq] at hcond
  exact h r hr hcond.1

/-- C7: to caller u, an update aimed at a row id that exists only under
another owner (store s1) and the same update aimed at an id that exists
nowhere (store s2) are indistinguishable: the client-visible result — it
destructures only the error field — is the same silent success in both
runs, and in both runs no row of any table is modified. Stated for all
four tables at once. -/
theorem update_not_found_not_yours_indistinguishable (u B : UserId) (rid : RowId)
    (s1 s2 : DB) (now : Time)
    (fP : Profile → Profile) (fC : Customer → Customer)
    (fI : Interaction → Interaction) (fR : Reminder → Reminder)
    (hB : B ≠ u)
    (h1P : ∀ p ∈ s1.profiles, p.id = rid → p.user_id = B)
    (h1C : ∀ c ∈ s1.customers, c.id = rid → c.user_id = B)
    (h1I : ∀ i ∈ s1.interactions, i.id = rid → i.user_id = B)
    (h1R : ∀ r ∈ s1.reminders, r.id = rid → r.user_id = B)
    (hexist : ∃ c ∈ s1.customers, c.id = rid ∧ c.user_id = B)
    (h2P : ∀ p ∈ s2.profiles, p.id ≠ rid)
    (h2C : ∀ c ∈ s2.customers, c.id ≠ rid)
    (h2I : ∀ i ∈ s2.interactions, i.id ≠ rid)
    (h2R : ∀ r ∈ s2.reminders, r.id ≠ rid) :
    (resultSignal (dbUpdateProfiles s1 u rid fP now) =
      resultSignal (dbUpdateProfiles s2 u rid fP now) ∧
     stateAfter s1 (dbUpdateProfiles s1 u rid fP now) = s1 ∧
     stateAfter s2 (dbUpdateProfiles s2 u rid fP now) = s2) ∧
    (resultSignal (dbUpdateCustomers s1 u rid fC now) =
      resultSignal (dbUpdateCustomers s2 u rid fC now) ∧
     stateAfter s1 (dbUpdateCustomers s1 u rid fC now) = s1 ∧
     stateAfter s2 (dbUpdateCustomers s2 u rid fC now) = s2) ∧
    (resultSignal (dbUpdateInteractions s1 u rid fI) =
      resultSignal (dbUpdateInteractions s2 u rid fI) ∧
     stateAfter s1 (dbUpdateInteractions s1 u rid fI) = s1 ∧
     stateAfter s2 (dbUpdateInteractions s2 u rid fI) = s2) ∧
    (resultSignal (dbUpdateReminders s1 u rid fR now) =
      resultSignal (dbUpdateReminders s2 u rid fR now) ∧
     stateAfter s1 (dbUpdateReminders s1 u rid fR now) = s1 ∧
     stateAfter s2 (dbUpdateReminders s2 u rid fR now) = s2) := by
  have e1P := dbUpdateProfiles_no_hit s1 u rid fP now
    (fun p hp hc => hB ((h1P p hp hc.1) ▸ hc.2))
  have e2P := dbUpdateProfiles_no_hit s2 u rid fP now
    (fun p hp hc => h2P p hp hc.1)
  have e1C := dbUpdateCustomers_no_hit s1 u rid fC now
    (fun c hc hcond => hB ((h1C c hc hcond.1) ▸ hcond.2))
  have e2C := dbUpdateCustomers_no_hit s2 u rid fC now
    (fun c hc hcond => h2C c hc hcond.1)
  have e1I := dbUpdateInteractions_no_hit s1 u rid fI
    (fun i hi hcond => hB ((h1I i hi hcond.1) ▸ hcond.2))
  have e2I := dbUpdateInteractions_no_hit s2 u rid fI
    (fun i hi hcond => h2I i hi hcond.1)
  have e1R := dbUpdateReminders_no_hit s1 u rid fR now
    (fun r hr hcond => hB ((h1R r hr hcond.1) ▸ hcond.2))
  have e2R := dbUpdateReminders_no_hit s2 u rid fR now
    (fun r hr hcond => h2R r hr hcond.1)
  rw [e1P, e2P, e1C, e2C, e1I, e2I, e1R, e2R]
  exact ⟨⟨rfl, rfl, rfl⟩, ⟨rfl, rfl, rfl⟩, ⟨rfl, rfl, rfl⟩, ⟨rfl, rfl, rfl⟩⟩

/-- Witness for update_not_found_not_yours_indistinguishable: user 9
updates id 1, which in dbOther belongs to user 2 in every table and in
dbSample does not exist at all. -/
theorem update_not_found_not_yours_witness :
    (resultSignal (dbUpdateProfiles dbOther 9 1 updProfileSet 60) =
      resultSignal (dbUpdateProfiles dbSample 9 1 updProfileSet 60) ∧
     stateAfter dbOther (dbUpdateProfiles dbOther 9 1 updProfileSet 60) = dbOther ∧
     stateAfter dbSample (dbUpdateProfiles dbSample 9 1 updProfileSet 60) = dbSample) ∧
    (resultSignal (dbUpdateCustomers dbOther 9 1 updCustomerSet 60) =
      resultSignal (dbUpdateCustomers dbSample 9 1 updCustomerSet 60) ∧
     stateAfter dbOther (dbUpdateCustomers dbOther 9 1 updCustomerSet 60) = dbOther ∧
     stateAfter dbSample (dbUpdateCustomers dbSample 9 1 updCustomerSet 60) = dbSample) ∧
    (resultSignal (dbUpdateInteractions dbOther 9 1 id) =
      resultSignal (dbUpdateInteractions dbSample 9 1 id) ∧
     stateAfter dbOther (dbUpdateInteractions dbOther 9 1 id) = dbOther ∧
     stateAfter dbSample (dbUpdateInteractions dbSample 9 1 id) = dbSample) ∧
    (resultSignal (dbUpdateReminders dbOther 9 1 updReminderSet 60) =
      resultSignal (dbUpdateReminders dbSample 9 1 updReminderSet 60) ∧
     stateAfter dbOther (dbUpdateReminders dbOther 9 1 updReminderSet 60) = dbOther ∧
     stateAfter dbSample (dbUpdateReminders dbSample 9 1 updReminderSet 60) = dbSample) :=
  update_not_found_not_yours_indistinguishable 9 2 1 dbOther dbSample 60
    updProfileSet updCustomerSet id updReminderSet (by decide)
    (by decide) (by decide) (by decide) (by decide) (by decide)
    (by decide) (by decide) (by decide) (by decide)

/-- Validation succeeds on a form whose trimmed name has at least two
characters and whose email field passes the zod gate. -/
theorem parseCustomerForm_valid (caller : UserId) (f : CustomerForm) (emailOk : Bool)
    (hname : 2 ≤ (jsTrim f.name).length)
    (hemail : (jsTrim f.email == "" || emailOk) = true) :
    parseCustomerForm caller f emailOk = .ok (parsedCustomer caller f) := by
  unfold parseCustomerForm
  rw [if_neg (by omega), if_neg (by simp [hemail])]

/-- Inversion of a successful validation: the payload is the parsed form
and the trimmed name has at least two characters. -/
theorem parseCustomerForm_ok_inv (caller : UserId) (f : CustomerForm) (emailOk : Bool)
    (d : CustomerData) (h : parseCustomerForm caller f emailOk = .ok d) :
    d = parsedCustomer caller f ∧ 2 ≤ (jsTrim f.name).length := by
  unfold parseCustomerForm at h
  split at h
  · exact Except.noConfusion h
  · next hlen =>
    split at h
    · exact Except.noConfusion h
    · injection h with h'
      exact ⟨h'.symm, by omega⟩

/-- C4: with a valid form, an owner already holding 20 customers has a
further create refused by the client pre-check with the plan-limit
conflict message before any write (the store is untouched), while an
owner holding 19 customers has the insert accepted, bringing the owned
count to 20. -/
theorem free_plan_limit (db19 db20 : DB) (caller : UserId) (f : CustomerForm)
    (emailOk : Bool) (newId : RowId) (now : Time)
    (hname : 2 ≤ (jsTrim f.name).length)
    (hemail : jsTrim f.email = "" ∨ emailOk = true)
    (h20 : countCustomers db20 caller = 20)
    (h19 : countCustomers db19 caller = 19) :
    (∃ msg, clientCreateCustomer db20 caller f emailOk newId now =
      .error (.conflictError msg)) ∧
    stateAfter db20 (clientCreateCustomer db20 caller f emailOk newId now) = db20 ∧
    (∃ db', clientCreateCustomer db19 caller f emailOk newId now = .ok db' ∧
      countCustomers db' caller = 20) := by
  have hemail' : (jsTrim f.email == "" || emailOk) = true := by
    rcases hemail with h | h
    · simp [h]
    · simp [h]
  have hparse := parseCustomerForm_valid caller f emailOk hname hemail'
  have hlen20 : (selectCustomers db20 caller).length = 20 := h20
  have hlen19 : (selectCustomers db19 caller).length = 19 := h19
  have hrefuse : clientCreateCustomer db20 caller f emailOk newId now =
      .error (.conflictError "Limite atingido: 20 clientes do plano gratuito") := by
    unfold clientCreateCustomer
    rw [hparse]
    simp only [hlen20]
    rw [if_pos (by omega)]
  refine ⟨⟨_, hrefuse⟩, by rw [hrefuse]; rfl, ?_⟩
  have haccept : clientCreateCustomer db19 caller f emailOk newId now =
      .ok { db19 with customers :=
        db19.customers ++ [mkCustomerRow newId (parsedCustomer caller f) now] } := by
    unfold clientCreateCustomer
    rw [hparse]
    simp only [hlen19]
    rw [if_neg (by omega)]
    unfold insertCustomer
    rw [if_pos (by simp [mkCustomerRow, parsedCustomer])]
  refine ⟨_, haccept, ?_⟩
  show (selectCustomers _ caller).length = 20
  unfold selectCustomers
  simp only [List.filter_append]
  rw [List.length_append]
  have hnew : (([mkCustomerRow newId (parsedCustomer caller f) now]).filter
      (fun c => c.user_id == caller)).length = 1 := by
    simp [mkCustomerRow, parsedCustomer]
  rw [hnew]
  have : ((db19.customers).filter (fun c => c.user_id == caller)).length = 19 := hlen19
  omega

/-- Witness for free_plan_limit: user 0, who owns 20 customers in one
store and 19 in another, submits the sample form. -/
theorem free_plan_limit_witness :
    (∃ msg, clientCreateCustomer (dbWithCustomers 20) 0 sampleForm true 99 8 =
      .error (.conflictError msg)) ∧
    stateAfter (dbWithCustomers 20)
      (clientCreateCustomer (dbWithCustomers 20) 0 sampleForm true 99 8) = dbWithCustomers 20 ∧
    (∃ db', clientCreateCustomer (dbWithCustomers 19) 0 sampleForm true 99 8 = .ok db' ∧
      countCustomers db' 0 = 20) :=
  free_plan_limit (dbWithCustomers 19) (dbWithCustomers 20) 0 sampleForm true 99 8
    (by decide) (by decide) (by decide) (by decide)

/-- A string of length at least two is not empty. -/
theorem ne_empty_of_two_le_length (s : String) (h : 2 ≤ s.length) : s ≠ "" := by
  intro h0
  subst h0
  exact absurd h (by decide)

/-- C8: the non-empty-name predicate on the customers table is preserved
by every customer-touching operation of the application — the client
create path (whose zod gate demands at least two characters after
trimming), the client update path (same gate), the customer delete with
its cascade, and the auth-user cascade delete. -/
theorem customer_names_never_empty (db : DB) (caller : UserId) (f : CustomerForm)
    (emailOk : Bool) (newId : RowId) (now : Time) (rid : RowId) (uid : UserId)
    (h : CustomerNamesOK db) :
    CustomerNamesOK (stateAfter db (clientCreateCustomer db caller f emailOk newId now)) ∧
    CustomerNamesOK (stateAfter db (clientUpdateCustomer db caller rid f emailOk now)) ∧
    CustomerNamesOK (handleDeleteCustomer db caller rid) ∧
    CustomerNamesOK (deleteAuthUser db uid) := by
  refine ⟨?_, ?_, ?_, ?_⟩
  · cases hp : parseCustomerForm caller f emailOk with
    | error e =>
      simp only [clientCreateCustomer, hp, stateAfter]
      exact h
    | ok d =>
      obtain ⟨hd, hlen⟩ := parseCustomerForm_ok_inv caller f emailOk d hp
      have hdname : d.name ≠ "" := by
        rw [hd]
        exact ne_empty_of_two_le_length _ hlen
      simp only [clientCreateCustomer, hp]
      split
      · simp only [stateAfter]
        exact h
      · have hins : insertCustomer db caller (mkCustomerRow newId d now) =
            .ok { db with customers := db.customers ++ [mkCustomerRow newId d now] } := by
          unfold insertCustomer
          rw [if_pos (by simp [mkCustomerRow, hd, parsedCustomer])]
        rw [hins]
        simp only [stateAfter]
        intro c hc
        simp only [List.mem_append, List.mem_singleton] at hc
        rcases hc with hc | hc
        · exact h c hc
        · subst hc
          exact hdname
  · cases hp : parseCustomerForm caller f emailOk with
    | error e =>
      simp only [clientUpdateCustomer, hp, stateAfter]
      exact h
    | ok d =>
      obtain ⟨hd, hlen⟩ := parseCustomerForm_ok_inv caller f emailOk d hp
      have hdname : d.name ≠ "" := by
        rw [hd]
        exact ne_empty_of_two_le_length _ hlen
      simp only [clientUpdateCustomer, hp]
      cases hu : dbUpdateCustomers db caller rid (setCustomerFields d) now with
      | error e =>
        simp only [stateAfter]
        exact h
      | ok db' =>
        have e := dbUpdateCustomers_ok db caller rid (setCustomerFields d) now db' hu
        simp only [stateAfter]
        intro c hc
        rw [e.1] at hc
        obtain ⟨c0, hc0, hmap⟩ := List.mem_map.mp hc
        unfold updCustomerRow at hmap
        split at hmap
        · subst hmap
          exact hdname
        · subst hmap
          exact h c0 hc0
  · intro c hc
    unfold handleDeleteCustomer dbDeleteCustomer at hc
    simp only [List.mem_filter] at hc
    exact h c hc.1
  · intro c hc
    unfold deleteAuthUser at hc
    simp only [List.mem_filter] at hc
    exact h c hc.1

/-- Witness for customer_names_never_empty: user 7 runs the four
operations against the sample store with the sample form. -/
theorem customer_names_never_empty_witness :
    CustomerNamesOK (stateAfter dbSample (clientCreateCustomer dbSample 7 sampleForm true 41 9)) ∧
    CustomerNamesOK (stateAfter dbSample (clientUpdateCustomer dbSample 7 11 sampleForm true 9)) ∧
    CustomerNamesOK (handleDeleteCustomer dbSample 7 11) ∧
    CustomerNamesOK (deleteAuthUser dbSample 3) :=
  customer_names_never_empty dbSample 7 sampleForm true 41 9 11 3
    (by unfold CustomerNamesOK; decide)

/-- C2: when the caller owns customer C (and ids are unique, as the
primary key guarantees), deleting C removes C, removes exactly the
interactions and reminders whose customer_id is C, keeps every other
customer, and leaves profiles untouched. The operation is a single
transition of the store, so no intermediate state — in particular none
with C gone but children present — exists. -/
theorem delete_customer_cascade_exact (db : DB) (caller : UserId) (cid : RowId)
    (C : Customer) (hC : C ∈ db.customers) (hid : C.id = cid)
    (hown : C.user_id = caller)
    (huniq : ∀ c ∈ db.customers, c.id = cid → c = C) :
    (∀ c ∈ (dbDeleteCustomer db caller cid).customers, c.id ≠ cid) ∧
    (∀ c ∈ db.customers, c.id ≠ cid → c ∈ (dbDeleteCustomer db caller cid).customers) ∧
    (dbDeleteCustomer db caller cid).interactions =
      db.interactions.filter (fun i => !(i.customer_id == cid)) ∧
    (dbDeleteCustomer db caller cid).reminders =
      db.reminders.filter (fun r => !(r.customer_id == cid)) ∧
    (dbDeleteCustomer db caller cid).profiles = db.profiles := by
  have key : ∀ x : RowId,
      (((db.customers.filter (fun c => c.id == cid && c.user_id == caller)).map
        (·.id)).contains x) = (x == cid) := by
    intro x
    cases hb : (x == cid) with
    | false =>
      rw [beq_eq_false_iff_ne] at hb
      rw [← Bool.not_eq_true]
      intro hmem
      rw [List.contains_eq_any_beq, List.any_eq_true] at hmem
      obtain ⟨y, hy, hxy⟩ := hmem
      obtain ⟨c, hcf, hcy⟩ := List.mem_map.mp hy
      have hcond := (List.mem_filter.mp hcf).2
      simp only [Bool.and_eq_true, beq_iff_eq] at hcond
      rw [beq_iff_eq] at hxy
      exact hb (hxy ▸ hcy ▸ hcond.1)
    | true =>
      rw [beq_iff_eq] at hb
      subst hb
      rw [List.contains_eq_any_beq, List.any_eq_true]
      refine ⟨C.id, List.mem_map_of_mem _ (List.mem_filter.mpr ⟨hC, ?_⟩), by simp [hid]⟩
      simp [hid, hown]
  refine ⟨?_, ?_, ?_, ?_, rfl⟩
  · intro c hc hceq
    unfold dbDeleteCustomer at hc
    simp only [List.mem_filter, Bool.not_eq_true'] at hc
    have hcC : c = C := huniq c hc.1 hceq
    have : (c.id == cid && c.user_id == caller) = true := by
      simp [hceq, hcC, hown, hid]
    rw [this] at hc
    exact Bool.noConfusion hc.2
  · intro c hc hcne
    unfold dbDeleteCustomer
    refine List.mem_filter.mpr ⟨hc, ?_⟩
    simp [hcne]
  · unfold dbDeleteCustomer
    refine List.filter_congr ?_
    intro i _
    rw [key i.customer_id]
  · unfold dbDeleteCustomer
    refine List.filter_congr ?_
    intro r _
    rw [key r.customer_id]

/-- Witness for delete_customer_cascade_exact: user 7 deletes customer 11
of the sample store, which carries one interaction and one reminder. -/
theorem delete_customer_cascade_exact_witness :
    (∀ c ∈ (dbDeleteCustomer dbSample 7 11).customers, c.id ≠ 11) ∧
    (∀ c ∈ dbSample.customers, c.id ≠ 11 → c ∈ (dbDeleteCustomer dbSample 7 11).customers) ∧
    (dbDeleteCustomer dbSample 7 11).interactions =
      dbSample.interactions.filter (fun i => !(i.customer_id == 11)) ∧
    (dbDeleteCustomer dbSample 7 11).reminders =
      dbSample.reminders.filter (fun r => !(r.customer_id == 11)) ∧
    (dbDeleteCustomer dbSample 7 11).profiles = dbSample.profiles :=
  delete_customer_cascade_exact dbSample 7 11 sampleCustomer7
    (by decide) (by decide) (by decide) (by decide)

/-- C1 counterexample: user 3 owns interaction 5, reached from the empty
store by policy-respecting inserts (user 2 creates customer 1, then user
3 creates an interaction referencing it — WITH CHECK constrains only
user_id, and foreign-key validation bypasses row security). When user 2
deletes its own customer 1, the ON DELETE CASCADE also removes user 3's
interaction: a delete issued by one owner does not leave the other
owner's rows unchanged. -/
theorem ownership_isolation_counterexample :
    (2 : UserId) ≠ 3 ∧
    crossInteraction ∈ dbCross.interactions ∧
    crossInteraction.user_id = 3 ∧
    crossInteraction ∉ (dbDeleteCustomer dbCross 2 1).interactions := by
  decide

/-- C1 amended: for distinct owners A and B, reads by B never return an A
row, inserts by B of A-owned rows are rejected with an authorization
error, and updates by B leave A's rows in every table unchanged; deletes
by B also leave A's rows unchanged provided the store is owner-coherent
(children share their parent customer's owner, which the application's
own writes maintain) — without that proviso the cascade of B deleting
B's own customer can remove A's children referencing it. -/
theorem ownership_isolation_amended (db : DB) (A B : UserId) (hAB : A ≠ B)
    (rid : RowId) (now : Time)
    (fP : Profile → Profile) (fC : Customer → Customer)
    (fI : Interaction → Interaction) (fR : Reminder → Reminder)
    (p : Profile) (c : Customer) (i : Interaction) (r : Reminder)
    (hp : p.user_id = A) (hc : c.user_id = A) (hi : i.user_id = A) (hr : r.user_id = A)
    (hco : OwnerCoherent db) :
    (∀ q ∈ selectProfiles db B, q.user_id ≠ A) ∧
    (∀ q ∈ selectCustomers db B, q.user_id ≠ A) ∧
    (∀ q ∈ selectInteractions db B, q.user_id ≠ A) ∧
    (∀ q ∈ selectReminders db B, q.user_id ≠ A) ∧
    insertProfile db B p = .error .authorizationError ∧
    insertCustomer db B c = .error .authorizationError ∧
    insertInteraction db B i = .error .authorizationError ∧
    insertReminder db B r = .error .authorizationError ∧
    (stateAfter db (dbUpdateProfiles db B rid fP now)).profiles.filter
        (fun q => q.user_id == A) = db.profiles.filter (fun q => q.user_id == A) ∧
    (stateAfter db (dbUpdateCustomers db B rid fC now)).customers.filter
        (fun q => q.user_id == A) = db.customers.filter (fun q => q.user_id == A) ∧
    (stateAfter db (dbUpdateInteractions db B rid fI)).interactions.filter
        (fun q => q.user_id == A) = db.interactions.filter (fun q => q.user_id == A) ∧
    (stateAfter db (dbUpdateReminders db B rid fR now)).reminders.filter
        (fun q => q.user_id == A) = db.reminders.filter (fun q => q.user_id == A) ∧
    (dbDeleteCustomer db B rid).customers.filter
        (fun q => q.user_id == A) = db.customers.filter (fun q => q.user_id == A) ∧
    (dbDeleteCustomer db B rid).interactions.filter
        (fun q => q.user_id == A) = db.interactions.filter (fun q => q.user_id == A) ∧
    (dbDeleteCustomer db B rid).reminders.filter
        (fun q => q.user_id == A) = db.reminders.filter (fun q => q.user_id == A) ∧
    (dbDeleteInteraction db B rid).interactions.filter
        (fun q => q.user_id == A) = db.interactions.filter (fun q => q.user_id == A) ∧
    (dbDeleteReminder db B rid).reminders.filter
        (fun q => q.user_id == A) = db.reminders.filter (fun q => q.user_id == A) ∧
    dbDeleteProfile db B rid = db := by
  have hBA : B ≠ A := fun h => hAB h.symm
  have hBAf : (B == A) = false := beq_eq_false_iff_ne.mpr hBA
  refine ⟨?_, ?_, ?_, ?_, ?_, ?_, ?_, ?_, ?_, ?_, ?_, ?_, ?_, ?_, ?_, ?_, ?_, rfl⟩
  · intro q hq
    have := (List.mem_filter.mp hq).2
    rw [beq_iff_eq] at this
    rw [this]
    exact hBA
  · intro q hq
    have := (List.mem_filter.mp hq).2
    rw [beq_iff_eq] at this
    rw [this]
    exact hBA
  · intro q hq
    have := (List.mem_filter.mp hq).2
    rw [beq_iff_eq] at this
    rw [this]
    exact hBA
  · intro q hq
    have := (List.mem_filter.mp hq).2
    rw [beq_iff_eq] at this
    rw [this]
    exact hBA
  · simp [insertProfile, hp, hAB]
  · simp [insertCustomer, hc, hAB]
  · simp [insertInteraction, hi, hAB]
  · simp [insertReminder, hr, hAB]
  · cases hu : dbUpdateProfiles db B rid fP now with
    | error e => simp only [stateAfter]
    | ok db' =>
      have e := dbUpdateProfiles_ok db B rid fP now db' hu
      simp only [stateAfter]
      rw [e.1]
      refine filter_map_fix _ _ _ ?_ ?_
      · intro x hx hxA
        rw [beq_iff_eq] at hxA
        unfold updProfileRow
        rw [if_neg]
        intro hcond
        simp only [Bool.and_eq_true, beq_iff_eq] at hcond
        exact hAB (hxA ▸ hcond.2)
      · intro x hx hxA
        by_cases hcond : (x.id == rid && x.user_id == B) = true
        · have hck := e.2.2.2.2 x hx hcond
          rw [beq_eq_false_iff_ne, hck]
          exact hBA
        · have hfixx : updProfileRow B rid fP now x = x := by
            unfold updProfileRow
            rw [if_neg hcond]
          rw [hfixx]
          exact hxA
  · cases hu : dbUpdateCustomers db B rid fC now with
    | error e => simp only [stateAfter]
    | ok db' =>
      have e := dbUpdateCustomers_ok db B rid fC now db' hu
      simp only [stateAfter]
      rw [e.1]
      refine filter_map_fix _ _ _ ?_ ?_
      · intro x hx hxA
        rw [beq_iff_eq] at hxA
        unfold updCustomerRow
        rw [if_neg]
        intro hcond
        simp only [Bool.and_eq_true, beq_iff_eq] at hcond
        exact hAB (hxA ▸ hcond.2)
      · intro x hx hxA
        by_cases hcond : (x.id == rid && x.user_id == B) = true
        · have hck := e.2.2.2.2 x hx hcond
          rw [beq_eq_false_iff_ne, hck]
          exact hBA
        · have hfixx : updCustomerRow B rid fC now x = x := by
            unfold updCustomerRow
            rw [if_neg hcond]
          rw [hfixx]
          exact hxA
  · cases hu : dbUpdateInteractions db B rid fI with
    | error e => simp only [stateAfter]
    | ok db' =>
      have e := dbUpdateInteractions_ok db B rid fI db' hu
      simp only [stateAfter]
      rw [e.1]
      refine filter_map_fix _ _ _ ?_ ?_
      · intro x hx hxA
        rw [beq_iff_eq] at hxA
        unfold updInteractionRow
        rw [if_neg]
        intro hcond
        simp only [Bool.and_eq_true, beq_iff_eq] at hcond
        exact hAB (hxA ▸ hcond.2)
      · intro x hx hxA
        by_cases hcond : (x.id == rid && x.user_id == B) = true
        · have hck := e.2.2.2.2 x hx hcond
          rw [beq_eq_false_iff_ne, hck]
          exact hBA
        · have hfixx : updInteractionRow B rid fI x = x := by
            unfold updInteractionRow
            rw [if_neg hcond]
          rw [hfixx]
          exact hxA
  · cases hu : dbUpdateReminders db B rid fR now with
    | error e => simp only [stateAfter]
    | ok db' =>
      have e := dbUpdateReminders_ok db B rid fR now db' hu
      simp only [stateAfter]
      rw [e.1]
      refine filter_map_fix _ _ _ ?_ ?_
      · intro x hx hxA
        rw [beq_iff_eq] at hxA
        unfold updReminderRow
        rw [if_neg]
        intro hcond
        simp only [Bool.and_eq_true, beq_iff_eq] at hcond
        exact hAB (hxA ▸ hcond.2)
      · intro x hx hxA
        by_cases hcond : (x.id == rid && x.user_id == B) = true
        · have hck := e.2.2.2.2 x hx hcond
          rw [beq_eq_false_iff_ne, hck]
          exact hBA
        · have hfixx : updReminderRow B rid fR now x = x := by
            unfold updReminderRow
            rw [if_neg hcond]
          rw [hfixx]
          exact hxA
  · unfold dbDeleteCustomer
    refine filter_filter_keep _ _ _ ?_
    intro x hx hxA
    rw [beq_iff_eq] at hxA
    simp [hxA, hAB]
  · unfold dbDeleteCustomer
    refine filter_filter_keep _ _ _ ?_
    intro x hx hxA
    rw [beq_iff_eq] at hxA
    rw [Bool.not_eq_true']
    rw [← Bool.not_eq_true]
    intro hmem
    rw [List.contains_eq_any_beq, List.any_eq_true] at hmem
    obtain ⟨y, hy, hxy⟩ := hmem
    obtain ⟨cst, hcf, hcy⟩ := List.mem_map.mp hy
    have hconds := List.mem_filter.mp hcf
    simp only [Bool.and_eq_true, beq_iff_eq] at hconds
    rw [beq_iff_eq] at hxy
    have hxc : x.customer_id = cst.id := hxy.trans hcy.symm
    have := hco.1 x hx cst hconds.1 hxc
    exact hAB (hxA ▸ this ▸ hconds.2.2)
  · unfold dbDeleteCustomer
    refine filter_filter_keep _ _ _ ?_
    intro x hx hxA
    rw [beq_iff_eq] at hxA
    rw [Bool.not_eq_true']
    rw [← Bool.not_eq_true]
    intro hmem
    rw [List.contains_eq_any_beq, List.any_eq_true] at hmem
    obtain ⟨y, hy, hxy⟩ := hmem
    obtain ⟨cst, hcf, hcy⟩ := List.mem_map.mp hy
    have hconds := List.mem_filter.mp hcf
    simp only [Bool.and_eq_true, beq_iff_eq] at hconds
    rw [beq_iff_eq] at hxy
    have hxc : x.customer_id = cst.id := hxy.trans hcy.symm
    have := hco.2 x hx cst hconds.1 hxc
    exact hAB (hxA ▸ this ▸ hconds.2.2)
  · unfold dbDeleteInteraction
    refine filter_filter_keep _ _ _ ?_
    intro x hx hxA
    rw [beq_iff_eq] at hxA
    simp [hxA, hAB]
  · unfold dbDeleteReminder
    refine filter_filter_keep _ _ _ ?_
    intro x hx hxA
    rw [beq_iff_eq] at hxA
    simp [hxA, hAB]

/-- Witness for ownership_isolation_amended: owners 7 and 9 over the
owner-coherent sample store, user 9 acting on id 11. -/
theorem ownership_isolation_amended_witness :
    (∀ q ∈ selectProfiles dbSample 9, q.user_id ≠ 7) ∧
    (∀ q ∈ selectCustomers dbSample 9, q.user_id ≠ 7) ∧
    (∀ q ∈ selectInteractions dbSample 9, q.user_id ≠ 7) ∧
    (∀ q ∈ selectReminders dbSample 9, q.user_id ≠ 7) ∧
    insertProfile dbSample 9 sampleProfile7 = .error .authorizationError ∧
    insertCustomer dbSample 9 sampleCustomer7 = .error .authorizationError ∧
    insertInteraction dbSample 9 sampleInteraction7 = .error .authorizationError ∧
    insertReminder dbSample 9 sampleReminder7 = .error .authorizationError ∧
    (stateAfter dbSample (dbUpdateProfiles dbSample 9 11 updProfileSet 70)).profiles.filter
        (fun q => q.user_id == 7) = dbSample.profiles.filter (fun q => q.user_id == 7) ∧
    (stateAfter dbSample (dbUpdateCustomers dbSample 9 11 updCustomerSet 70)).customers.filter
        (fun q => q.user_id == 7) = dbSample.customers.filter (fun q => q.user_id == 7) ∧
    (stateAfter dbSample (dbUpdateInteractions dbSample 9 11 id)).interactions.filter
        (fun q => q.user_id == 7) = dbSample.interactions.filter (fun q => q.user_id == 7) ∧
    (stateAfter dbSample (dbUpdateReminders dbSample 9 11 updReminderSet 70)).reminders.filter
        (fun q => q.user_id == 7) = dbSample.reminders.filter (fun q => q.user_id == 7) ∧
    (dbDeleteCustomer dbSample 9 11).customers.filter
        (fun q => q.user_id == 7) = dbSample.customers.filter (fun q => q.user_id == 7) ∧
    (dbDeleteCustomer dbSample 9 11).interactions.filter
        (fun q => q.user_id == 7) = dbSample.interactions.filter (fun q => q.user_id == 7) ∧
    (dbDeleteCustomer dbSample 9 11).reminders.filter
        (fun q => q.user_id == 7) = dbSample.reminders.filter (fun q => q.user_id == 7) ∧
    (dbDeleteInteraction dbSample 9 11).interactions.filter
        (fun q => q.user_id == 7) = dbSample.interactions.filter (fun q => q.user_id == 7) ∧
    (dbDeleteReminder dbSample 9 11).reminders.filter
        (fun q => q.user_id == 7) = dbSample.reminders.filter (fun q => q.user_id == 7) ∧
    dbDeleteProfile dbSample 9 11 = dbSample :=
  ownership_isolation_amended dbSample 7 9 (by decide) 11 70
    updProfileSet updCustomerSet id updReminderSet
    sampleProfile7 sampleCustomer7 sampleInteraction7 sampleReminder7
    (by decide) (by decide) (by decide) (by decide)
    (by unfold OwnerCoherent; decide)

end ClienteSimplesBox
